import Mathlib

/-!
Verification development for the Umbrel-Kiosk browser shell.

The definitions below are a shallow embedding of the runtime logic of
`src/main.js` and `src/config.js`:

* JavaScript objects used by the configuration store are modelled as
  association lists (`JSObject`) with JavaScript's first-key lookup and
  spread/overwrite semantics.
* The host environment's `new URL(...)` parser is modelled abstractly: every
  function that parses a URL string takes the parse result as an explicit
  `Option URLParts` argument (`none` models the `TypeError` branch of the
  `try/catch` in `rewriteUmbrelURL`), with the component fields following the
  WHATWG URL accessors used by the code (`protocol` keeps the trailing colon,
  `port` is the empty string when the URL carries no explicit port).
* The mutable module-level state of the main process (`targetURL`,
  `currentURL`, `isOnline`, `networkCheckTimer`, `isShowingOverlay`, the
  injected overlay DOM nodes and the issued `loadURL` calls) is gathered in a
  `KioskState` record, and every event handler becomes a state-transition
  function.  Injected scripts are modelled by their effect on the list of
  overlay elements carrying the id `umbrel-kiosk-overlay`; script execution is
  modelled as succeeding (the `.catch` fallbacks are not exercised by the
  properties below).
-/

/-! ## JavaScript values and objects (configuration store) -/

/-- A JavaScript value as stored in the configuration object.  The shipped
defaults are all strings; booleans can be written through the settings
toggles. -/
inductive JSValue where
  | str (s : String)
  | bool (b : Bool)
deriving DecidableEq, Repr

/-- A JavaScript object, as an association list in property order. -/
abbrev JSObject := List (String × JSValue)

/-- Property read `obj[key]`: first binding wins, `undefined` is `none`. -/
def objGet : JSObject → String → Option JSValue
  | [], _ => none
  | (k, v) :: rest, key => if k = key then some v else objGet rest key

/-- Property write `obj[key] = v`: overwrite the existing binding in place,
or append a new binding at the end (JavaScript property-order semantics). -/
def objSetKey : JSObject → String → JSValue → JSObject
  | [], key, v => [(key, v)]
  | (k, w) :: rest, key, v =>
      if k = key then (k, v) :: rest else (k, w) :: objSetKey rest key v

/-- Object spread `{ ...base, ...updates }`: every binding of `updates` is
written over `base` in order. -/
def objMerge (base updates : JSObject) : JSObject :=
  updates.foldl (fun acc kv => objSetKey acc kv.1 kv.2) base

/-- The `DEFAULT_CONFIG` record of `src/config.js`. -/
def DEFAULT_CONFIG : JSObject :=
  [ ("cursorTheme", JSValue.str "dark"),
    ("cursorSize", JSValue.str "medium"),
    ("dockPosition", JSValue.str "bottom-right"),
    ("dockSize", JSValue.str "medium"),
    ("homeUrl", JSValue.str "http://umbrel.local") ]

namespace ConfigManager

/-- What `ConfigManager.get` can return: a single property read, or the
whole configuration object. -/
inductive GetResult where
  | value (v : Option JSValue)
  | all (o : JSObject)
deriving DecidableEq, Repr

/-- `ConfigManager.get(key)`: `key ? this.config[key] : this.config` — a
truthy key reads that property (`undefined` as `none`), a falsy key (the
empty string) returns the entire configuration object. -/
def get (config : JSObject) (key : String) : GetResult :=
  if key = "" then .all config else .value (objGet config key)

/-- Single-key `ConfigManager.set(key, value)`: the resulting in-memory
configuration (`this.config[key] = value`).  The accompanying `save()` call
only touches the disk and is modelled separately. -/
def set (config : JSObject) (key : String) (value : JSValue) : JSObject :=
  objSetKey config key value

/-- Bulk `ConfigManager.set(obj)`: `this.config = { ...this.config, ...obj }`. -/
def setBulk (config : JSObject) (updates : JSObject) : JSObject :=
  objMerge config updates

/-- `ConfigManager.reset()`: `this.config = { ...DEFAULT_CONFIG }`. -/
def reset (_config : JSObject) : JSObject :=
  DEFAULT_CONFIG

/-- `ConfigManager.getAll()`: `{ ...this.config }` (a copy). -/
def getAll (config : JSObject) : JSObject :=
  config

/-- Outcome of looking for and reading the configuration file in
`ConfigManager.load`: the file may be absent (`existsSync` false), reading or
`JSON.parse` may throw, or parsing may yield an object. -/
inductive FileReadResult where
  | absent
  | unreadable
  | parsed (o : JSObject)
deriving DecidableEq, Repr

/-- `ConfigManager.load()`: starting from the in-memory configuration `prior`
(the constructor sets it to `{ ...DEFAULT_CONFIG }`), an absent file keeps
`prior`, a read/parse failure is caught and resets to `{ ...DEFAULT_CONFIG }`,
and a parsed object is merged over the defaults as
`{ ...DEFAULT_CONFIG, ...loaded }`. -/
def load (prior : JSObject) (r : FileReadResult) : JSObject :=
  match r with
  | .absent => prior
  | .unreadable => DEFAULT_CONFIG
  | .parsed o => objMerge DEFAULT_CONFIG o

end ConfigManager

/-! ## URL model and the rewrite rule -/

/-- The components of a parsed URL, following the WHATWG `URL` accessors
used by `rewriteUmbrelURL`: `protocol` includes the trailing colon,
`port` is `""` when the URL has no explicit port (the parser also strips a
port equal to the scheme default), `search` and `hash` include their leading
delimiter or are empty. -/
structure URLParts where
  protocol : String
  hostname : String
  port : String
  pathname : String
  search : String
  hash : String
deriving DecidableEq, Repr

/-- Split a character list at every `.` (each separator starts a new group,
so leading, trailing and doubled dots produce empty groups). -/
def splitDot : List Char → List (List Char)
  | [] => [[]]
  | c :: rest =>
      match splitDot rest with
      | [] => [[]]
      | g :: gs => if c = '.' then [] :: g :: gs else (c :: g) :: gs

/-- Nonempty all-ASCII-digit character list, the language of the regex piece
`\d+`. -/
def isDigits (cs : List Char) : Bool :=
  !cs.isEmpty && cs.all Char.isDigit

/-- The test `/^10\.21\.\d+\.\d+$/.test(hostname)`.  Since neither `10`, `21`
nor `\d+` can contain a dot, the regex language is exactly: the hostname has
four dot-separated components, the first two literally `10` and `21`, the
last two nonempty digit strings. -/
def isUmbrelInternalIP (host : String) : Bool :=
  match splitDot host.data with
  | [['1', '0'], ['2', '1'], a, b] => isDigits a && isDigits b
  | _ => false

/-- The hostname condition under which `rewriteUmbrelURL` rewrites:
internal Docker IP, or a loopback alias. -/
def rewriteCondition (host : String) : Bool :=
  isUmbrelInternalIP host || host == "localhost" || host == "127.0.0.1"

/-- JavaScript `parsed.port || 80` as it is interpolated into the template
literal: the explicit port string, or the literal `80` when the port is
empty. -/
def portOr80 (port : String) : String :=
  if port = "" then "80" else port

/-- Serialize URL parts with the template-literal shape used by
`rewriteUmbrelURL`:
`protocol + "//" + hostname + ":" + port + pathname + search + hash`. -/
def serializeURL (p : URLParts) : String :=
  p.protocol ++ "//" ++ p.hostname ++ ":" ++ p.port ++ p.pathname ++ p.search ++ p.hash

/-- `rewriteUmbrelURL(url)` from `src/main.js`.  `parsed` is the result of
`new URL(url)` (`none` when the constructor throws, which the `catch` turns
into returning the input unchanged); `baseHost` is
`new URL(cliConfig.url).hostname`, the hostname of the configured home URL. -/
def rewriteUmbrelURL (url : String) (parsed : Option URLParts) (baseHost : String) : String :=
  match parsed with
  | none => url
  | some p =>
      if isUmbrelInternalIP p.hostname then
        p.protocol ++ "//" ++ baseHost ++ ":" ++ portOr80 p.port
          ++ p.pathname ++ p.search ++ p.hash
      else if p.hostname == "localhost" || p.hostname == "127.0.0.1" then
        p.protocol ++ "//" ++ baseHost ++ ":" ++ portOr80 p.port
          ++ p.pathname ++ p.search ++ p.hash
      else url

/-- The scheme-default port of the WHATWG URL standard for the schemes the
kiosk handles (`http:` is 80, `https:` is 443). -/
def defaultPort (protocol : String) : String :=
  if protocol = "https:" then "443"
  else if protocol = "http:" then "80"
  else ""

/-- Modelled from the spec: the port the rewritten URL should carry according
to the specification text, namely the explicit port of the destination URL or,
when absent, the default port of its scheme. -/
def specPortOrDefault (protocol port : String) : String :=
  if port = "" then defaultPort protocol else port

/-- Modelled from the spec: the rewrite rule as the specification words it,
replacing the host with the configured home hostname while preserving scheme,
port-or-default, path, query, and fragment.  Used only to compare the
implementation against the specification. -/
def rewriteURLSpec (url : String) (parsed : Option URLParts) (baseHost : String) : String :=
  match parsed with
  | none => url
  | some p =>
      if rewriteCondition p.hostname then
        serializeURL { p with
          hostname := baseHost,
          port := specPortOrDefault p.protocol p.port }
      else url

/-! ## Kiosk main-process state machine -/

/-- The kind of error/status overlay element injected under the id
`umbrel-kiosk-overlay` (the network-error, load-error and unresponsive
overlays all share that id; the crash overlay is a separate dedicated page
loaded with `loadFile`). -/
inductive OverlayKind where
  | networkError
  | loadError
  | unresponsive
deriving DecidableEq, Repr

/-- The mutable module-level state of `src/main.js`, together with an
observation log of issued page loads.

* `dom` is the list of elements with id `umbrel-kiosk-overlay` currently in
  the page document, in document order.
* `activeTimers` counts the live `setInterval` timers of the network probe,
  so that the at-most-one-timer property is about actual timers rather than
  about the `networkCheckTimer` variable alone.
* `loads` records every `loadURL`/`loadFile` call issued, in order.
* `windows` counts the live browser windows (a `setWindowOpenHandler` result
  of `allow` would create one). -/
structure KioskState where
  targetURL : String
  currentURL : String
  isOnline : Bool
  networkCheckTimer : Bool
  activeTimers : Nat
  isShowingOverlay : Bool
  serviceMenuVisible : Bool
  dom : List OverlayKind
  loads : List String
  windows : Nat
deriving DecidableEq, Repr

/-- The injected script of `showNetworkError`/`showLoadError`: if an element
with id `umbrel-kiosk-overlay` already exists it returns, otherwise it appends
a fresh overlay element to the body. -/
def overlayScriptGuarded (k : OverlayKind) (dom : List OverlayKind) : List OverlayKind :=
  if dom.isEmpty then dom ++ [k] else dom

/-- The injected script of `showUnresponsiveOverlay`: remove the existing
element with id `umbrel-kiosk-overlay` (the first in document order), then
append a fresh one. -/
def overlayScriptReplace (k : OverlayKind) (dom : List OverlayKind) : List OverlayKind :=
  dom.tail ++ [k]

/-- The injected script of `hideOverlay`: remove the element with id
`umbrel-kiosk-overlay` if present (the first in document order). -/
def removeOverlayScript (dom : List OverlayKind) : List OverlayKind :=
  dom.tail

/-- The file loaded by `showCrashOverlay`. -/
def crashPageFile : String := "file://crash.html"

/-- `showNetworkError()`: early-return while an overlay is already showing,
otherwise set the flag and inject the network-error overlay. -/
def showNetworkError (s : KioskState) : KioskState :=
  if s.isShowingOverlay then s
  else { s with
    isShowingOverlay := true,
    dom := overlayScriptGuarded .networkError s.dom }

/-- `showLoadError(description)`: early-return while an overlay is already
showing, otherwise set the flag and inject the load-error overlay (the
description is interpolated into the overlay markup and does not affect the
element structure). -/
def showLoadError (_description : String) (s : KioskState) : KioskState :=
  if s.isShowingOverlay then s
  else { s with
    isShowingOverlay := true,
    dom := overlayScriptGuarded .loadError s.dom }

/-- `showCrashOverlay()`: set the flag and load the dedicated crash page
(a full page load; the injected DOM of the dead page is destroyed when that
load commits). -/
def showCrashOverlay (s : KioskState) : KioskState :=
  { s with
    isShowingOverlay := true,
    loads := s.loads ++ [crashPageFile] }

/-- `showUnresponsiveOverlay()`: set the flag and inject the unresponsive
overlay, removing any previous overlay element first. -/
def showUnresponsiveOverlay (s : KioskState) : KioskState :=
  { s with
    isShowingOverlay := true,
    dom := overlayScriptReplace .unresponsive s.dom }

/-- `hideOverlay()`: clear the flag and remove the overlay element. -/
def hideOverlay (s : KioskState) : KioskState :=
  { s with
    isShowingOverlay := false,
    dom := removeOverlayScript s.dom }

/-- `startNetworkCheck()`: a no-op while `networkCheckTimer` is set,
otherwise create the probe interval. -/
def startNetworkCheck (s : KioskState) : KioskState :=
  if s.networkCheckTimer then s
  else { s with
    networkCheckTimer := true,
    activeTimers := s.activeTimers + 1 }

/-- `stopNetworkCheck()`: clear the interval if one is registered. -/
def stopNetworkCheck (s : KioskState) : KioskState :=
  if s.networkCheckTimer then
    { s with
      networkCheckTimer := false,
      activeTimers := s.activeTimers - 1 }
  else s

/-- `reloadPage()`: `mainWindow.loadURL(currentURL)`. -/
def reloadPage (s : KioskState) : KioskState :=
  { s with loads := s.loads ++ [s.currentURL] }

/-- The network-error test of the `did-fail-load` handler:
`errorCode === -106 || -105 || -102 || -101`. -/
def isNetworkErrorCode (e : Int) : Bool :=
  e == -106 || e == -105 || e == -102 || e == -101

/-- Chromium net error code ERR_TIMED_OUT. -/
def ERR_TIMED_OUT : Int := -7
/-- Chromium net error code ERR_CONNECTION_TIMED_OUT. -/
def ERR_CONNECTION_TIMED_OUT : Int := -118
/-- Chromium net error code ERR_CONNECTION_RESET. -/
def ERR_CONNECTION_RESET : Int := -101
/-- Chromium net error code ERR_CONNECTION_REFUSED. -/
def ERR_CONNECTION_REFUSED : Int := -102
/-- Chromium net error code ERR_NAME_NOT_RESOLVED. -/
def ERR_NAME_NOT_RESOLVED : Int := -105
/-- Chromium net error code ERR_INTERNET_DISCONNECTED. -/
def ERR_INTERNET_DISCONNECTED : Int := -106

/-- The `did-fail-load` handler: on a network-class code, mark offline, show
the network-error overlay and start the recovery probe; otherwise show the
generic load-error overlay. -/
def didFailLoad (s : KioskState) (errorCode : Int) (errorDescription : String) : KioskState :=
  if isNetworkErrorCode errorCode then
    startNetworkCheck (showNetworkError { s with isOnline := false })
  else
    showLoadError errorDescription s

/-- One firing of the `setInterval` callback of `startNetworkCheck` (it can
only fire while the interval is live); `fetchOk` is the boolean the probe
`fetch` resolved to.  On success: mark online, stop the probe, hide the
overlay and reload the current URL. -/
def networkCheckTick (s : KioskState) (fetchOk : Bool) : KioskState :=
  if s.networkCheckTimer then
    if fetchOk then
      reloadPage (hideOverlay (stopNetworkCheck { s with isOnline := true }))
    else s
  else s

/-- Does the URL string start with `http://` or `https://`
(`url.startsWith(...)` of the handlers)? -/
def httpPrefixed (url : String) : Bool :=
  "http://".data.isPrefixOf url.data || "https://".data.isPrefixOf url.data

/-- The `will-navigate` handler: if the rewrite rule changes the URL, cancel
the navigation and load the rewritten URL instead; otherwise track the URL as
current when it is http/https. -/
def willNavigate (s : KioskState) (url : String) (parsed : Option URLParts)
    (baseHost : String) : KioskState :=
  let rewritten := rewriteUmbrelURL url parsed baseHost
  if rewritten ≠ url then
    { s with loads := s.loads ++ [rewritten] }
  else if httpPrefixed url then
    { s with currentURL := url }
  else s

/-- The `did-navigate` handler (a committed top-level navigation).  The commit
replaces the document, destroying every injected node; then the handler tracks
http/https URLs as current (scheduling dock/cursor re-injection) and hides the
overlay. -/
def didNavigate (s : KioskState) (url : String) : KioskState :=
  let committed := { s with dom := ([] : List OverlayKind) }
  let tracked :=
    if httpPrefixed url then { committed with currentURL := url } else committed
  hideOverlay tracked

/-- The `did-navigate-in-page` handler: track http/https URLs as current. -/
def didNavigateInPage (s : KioskState) (url : String) : KioskState :=
  if httpPrefixed url then { s with currentURL := url } else s

/-- The `will-redirect` handler, identical in shape to `will-navigate`:
rewritten redirects are cancelled and re-issued, http/https URLs are tracked
as current. -/
def willRedirect (s : KioskState) (url : String) (parsed : Option URLParts)
    (baseHost : String) : KioskState :=
  let rewritten := rewriteUmbrelURL url parsed baseHost
  if rewritten ≠ url then
    { s with loads := s.loads ++ [rewritten] }
  else if httpPrefixed url then
    { s with currentURL := url }
  else s

/-- The decision a `setWindowOpenHandler` callback returns. -/
inductive WindowOpenAction where
  | allow
  | deny
deriving DecidableEq, Repr

/-- The `setWindowOpenHandler` callback for `window.open`/`target=_blank`:
schedule a load of the rewritten URL in the existing window and return
`{ action: 'deny' }`. -/
def windowOpenHandler (s : KioskState) (url : String) (parsed : Option URLParts)
    (baseHost : String) : WindowOpenAction × KioskState :=
  (WindowOpenAction.deny,
    { s with loads := s.loads ++ [rewriteUmbrelURL url parsed baseHost] })

/-- The browser engine acting on the handler's decision: an `allow` result
would create a second window, a `deny` result creates none. -/
def applyWindowOpen (s : KioskState) (url : String) (parsed : Option URLParts)
    (baseHost : String) : KioskState :=
  let (action, s1) := windowOpenHandler s url parsed baseHost
  if action = WindowOpenAction.allow then { s1 with windows := s1.windows + 1 } else s1

/-- `hideServiceMenu()` (its injected script removes the service-menu element,
which is independent of the error-overlay id and not tracked in `dom`). -/
def hideServiceMenu (s : KioskState) : KioskState :=
  { s with serviceMenuVisible := false }

/-- The `kiosk:retry` IPC handler. -/
def kioskRetry (s : KioskState) : KioskState :=
  reloadPage (hideOverlay s)

/-- The `kiosk:reload` IPC handler. -/
def kioskReload (s : KioskState) : KioskState :=
  reloadPage (hideServiceMenu s)

/-- The `kiosk:navigate` IPC handler: hide the service menu, overwrite both
the target URL and the current URL, and load the requested URL. -/
def kioskNavigate (s : KioskState) (url : String) : KioskState :=
  let s1 := hideServiceMenu s
  { s1 with
    targetURL := url,
    currentURL := url,
    loads := s1.loads ++ [url] }

/-- The `kiosk:goHome` IPC handler: load the stored target URL. -/
def kioskGoHome (s : KioskState) : KioskState :=
  { s with loads := s.loads ++ [s.targetURL] }

/-- The `crashed` event handler (the scheduled reload fires 3 seconds later
as a separate timer event, `Op.crashReloadEv`). -/
def crashedHandler (s : KioskState) : KioskState :=
  showCrashOverlay s

/-- The `unresponsive` event handler. -/
def unresponsiveHandler (s : KioskState) : KioskState :=
  showUnresponsiveOverlay s

/-- The `responsive` event handler. -/
def responsiveHandler (s : KioskState) : KioskState :=
  hideOverlay s

/-- The runtime events of the main process that mutate the kiosk state:
navigation/engine events, load failures, crash/hang signals, the IPC bridge
commands that touch navigation state, and timer firings. -/
inductive Op where
  | willNavigateEv (url : String) (parsed : Option URLParts)
  | didNavigateEv (url : String)
  | didNavigateInPageEv (url : String)
  | willRedirectEv (url : String) (parsed : Option URLParts)
  | windowOpenEv (url : String) (parsed : Option URLParts)
  | didFailLoadEv (code : Int) (description : String)
  | crashedEv
  | crashReloadEv
  | unresponsiveEv
  | responsiveEv
  | retryEv
  | reloadEv
  | hideServiceMenuEv
  | navigateEv (url : String)
  | goHomeEv
  | tickEv (fetchOk : Bool)
deriving DecidableEq, Repr

/-- Is the operation the `kiosk:navigate` bridge command? -/
def Op.isNavigate : Op → Bool
  | .navigateEv _ => true
  | _ => false

/-- Dispatch one runtime event to its handler.  `baseHost` is the constant
`new URL(cliConfig.url).hostname` used by the rewrite rule. -/
def step (baseHost : String) (op : Op) (s : KioskState) : KioskState :=
  match op with
  | .willNavigateEv url parsed => willNavigate s url parsed baseHost
  | .didNavigateEv url => didNavigate s url
  | .didNavigateInPageEv url => didNavigateInPage s url
  | .willRedirectEv url parsed => willRedirect s url parsed baseHost
  | .windowOpenEv url parsed => applyWindowOpen s url parsed baseHost
  | .didFailLoadEv code description => didFailLoad s code description
  | .crashedEv => crashedHandler s
  | .crashReloadEv => reloadPage s
  | .unresponsiveEv => unresponsiveHandler s
  | .responsiveEv => responsiveHandler s
  | .retryEv => kioskRetry s
  | .reloadEv => kioskReload s
  | .hideServiceMenuEv => hideServiceMenu s
  | .navigateEv url => kioskNavigate s url
  | .goHomeEv => kioskGoHome s
  | .tickEv fetchOk => networkCheckTick s fetchOk

/-- A fresh kiosk state as initialised at module load with the default CLI
URL, before any event has fired. -/
def cleanState : KioskState :=
  { targetURL := "http://umbrel.local",
    currentURL := "http://umbrel.local",
    isOnline := true,
    networkCheckTimer := false,
    activeTimers := 0,
    isShowingOverlay := false,
    serviceMenuVisible := false,
    dom := [],
    loads := [],
    windows := 1 }

/-! ## Helper lemmas -/

theorem objGet_objSetKey_same (o : JSObject) (k : String) (v : JSValue) :
    objGet (objSetKey o k v) k = some v := by
  induction o with
  | nil => simp [objSetKey, objGet]
  | cons hd tl ih =>
      obtain ⟨k', w⟩ := hd
      by_cases h : k' = k
      · simp [objSetKey, objGet, h]
      · simp [objSetKey, objGet, h, ih]

theorem tail_eq_nil_of_length_le_one {α : Type} (l : List α) (h : l.length ≤ 1) :
    l.tail = [] := by
  cases l with
  | nil => rfl
  | cons hd tl =>
      simp only [List.length_cons] at h
      have : tl.length = 0 := by omega
      simpa [List.tail_cons] using List.eq_nil_of_length_eq_zero this

theorem overlayScriptGuarded_length (k : OverlayKind) (dom : List OverlayKind)
    (h : dom.length ≤ 1) : (overlayScriptGuarded k dom).length ≤ 1 := by
  unfold overlayScriptGuarded
  by_cases he : dom.isEmpty
  · simp [he]
    simp [List.isEmpty_iff] at he
    simp [he]
  · simpa [he] using h

theorem overlayScriptReplace_eq (k : OverlayKind) (dom : List OverlayKind)
    (h : dom.length ≤ 1) : overlayScriptReplace k dom = [k] := by
  unfold overlayScriptReplace
  rw [tail_eq_nil_of_length_le_one dom h]
  rfl

/-! ## Claim theorems -/

/-- C8 counterexample: for the empty (falsy) key, `get` takes the
`this.config` branch and returns the entire configuration object, so
`set("", v)` followed by `get("")` does not return `v`. -/
theorem config_get_empty_key_cx :
    ConfigManager.get (ConfigManager.set DEFAULT_CONFIG "" (JSValue.str "v")) ""
      = ConfigManager.GetResult.all (DEFAULT_CONFIG ++ [("", JSValue.str "v")]) ∧
    ConfigManager.get (ConfigManager.set DEFAULT_CONFIG "" (JSValue.str "v")) ""
      ≠ ConfigManager.GetResult.value (some (JSValue.str "v")) := by
  refine ⟨by decide, by decide⟩

/-- C8 (amended): configuration round-trip for every truthy key: for every
configuration object, nonempty key and value, `set(key, value)` followed by
`get(key)` returns that value (the empty key instead makes `get` return the
whole configuration object); and `reset()` followed by `getAll()` returns
exactly the default record. -/
theorem config_roundtrip :
    (∀ (cfg : JSObject) (k : String) (v : JSValue), k ≠ "" →
        ConfigManager.get (ConfigManager.set cfg k v) k
          = ConfigManager.GetResult.value (some v)) ∧
    (∀ cfg : JSObject,
        ConfigManager.getAll (ConfigManager.reset cfg) = DEFAULT_CONFIG) := by
  constructor
  · intro cfg k v hk
    unfold ConfigManager.get ConfigManager.set
    simp [hk, objGet_objSetKey_same cfg k v]
  · intro _
    rfl

/-- Witness for C8 at the `cursorTheme` key. -/
theorem config_roundtrip_witness :
    ("cursorTheme" : String) ≠ "" ∧
    ConfigManager.get
        (ConfigManager.set DEFAULT_CONFIG "cursorTheme" (JSValue.str "light"))
        "cursorTheme"
      = ConfigManager.GetResult.value (some (JSValue.str "light")) ∧
    ConfigManager.getAll (ConfigManager.reset DEFAULT_CONFIG) = DEFAULT_CONFIG := by
  refine ⟨by decide,
    config_roundtrip.1 DEFAULT_CONFIG "cursorTheme" (JSValue.str "light") (by decide),
    config_roundtrip.2 DEFAULT_CONFIG⟩

/-- C10: when the configuration file exists but reading or JSON-parsing it
fails, `ConfigManager.load` discards every persisted and prior in-memory
value and leaves the configuration exactly equal to the default record, key
by key, and returns normally (the failure is caught, hence non-fatal). -/
theorem config_load_failure_defaults :
    ∀ prior : JSObject,
      ConfigManager.load prior ConfigManager.FileReadResult.unreadable = DEFAULT_CONFIG ∧
      (∀ k : String,
        objGet (ConfigManager.load prior ConfigManager.FileReadResult.unreadable) k
          = objGet DEFAULT_CONFIG k) := by
  intro prior
  exact ⟨rfl, fun _ => rfl⟩

/-- C6: every destination URL that does not satisfy the rewrite condition is
returned unchanged by `rewriteUmbrelURL`: both when the URL fails to parse
(the constructor throws and the catch falls through) and when it parses to a
host that is neither an internal 10.21.x.x address nor a loopback alias. -/
theorem rewriteUmbrelURL_nonmatching_unchanged (url : String) (baseHost : String) :
    rewriteUmbrelURL url none baseHost = url ∧
    (∀ p : URLParts, rewriteCondition p.hostname = false →
        rewriteUmbrelURL url (some p) baseHost = url) := by
  constructor
  · rfl
  · intro p h
    unfold rewriteCondition at h
    simp only [Bool.or_eq_false_iff] at h
    obtain ⟨⟨h1, h2⟩, h3⟩ := h
    simp [rewriteUmbrelURL, h1, h2, h3]

/-- Witness for C6 at a parse failure and at the external host
`example.org`. -/
theorem rewriteUmbrelURL_nonmatching_unchanged_witness :
    rewriteUmbrelURL "not a url" none "umbrel.local" = "not a url" ∧
    rewriteCondition "example.org" = false ∧
    rewriteUmbrelURL "http://example.org/a?b=c"
        (some { protocol := "http:", hostname := "example.org", port := "",
                pathname := "/a", search := "?b=c", hash := "" })
        "umbrel.local"
      = "http://example.org/a?b=c" := by
  refine ⟨(rewriteUmbrelURL_nonmatching_unchanged "not a url" "umbrel.local").1,
          by decide,
          (rewriteUmbrelURL_nonmatching_unchanged "http://example.org/a?b=c" "umbrel.local").2
            _ (by decide)⟩

/-- C1 (amended): for every destination URL whose host matches the internal
10.21.x.x pattern or is a loopback alias, the rewritten URL preserves scheme,
path, query and fragment, replaces the host with the configured home
hostname, and carries the destination URL's explicit port or, when the URL
has no explicit port, the literal port 80 regardless of scheme (the home
URL's own port is not used). -/
theorem rewriteUmbrelURL_internal_host_parts
    (url : String) (p : URLParts) (baseHost : String)
    (h : rewriteCondition p.hostname = true) :
    rewriteUmbrelURL url (some p) baseHost =
      serializeURL { p with hostname := baseHost, port := portOr80 p.port } := by
  unfold rewriteCondition at h
  unfold rewriteUmbrelURL serializeURL
  by_cases h1 : isUmbrelInternalIP p.hostname
  · simp [h1]
  · rw [Bool.or_assoc] at h
    have h2 : (p.hostname == "localhost" || p.hostname == "127.0.0.1") = true := by
      rcases Bool.or_eq_true_iff.mp h with hl | hr
      · exact absurd hl (by simp [h1])
      · exact hr
    simp [h1, h2]

/-- Witness for C1 at the scenario popup `http://10.21.0.5:3000/app/settings`
with home host `umbrel.local`. -/
theorem rewriteUmbrelURL_internal_host_parts_witness :
    rewriteCondition "10.21.0.5" = true ∧
    rewriteUmbrelURL "http://10.21.0.5:3000/app/settings"
        (some { protocol := "http:", hostname := "10.21.0.5", port := "3000",
                pathname := "/app/settings", search := "", hash := "" })
        "umbrel.local"
      = "http://umbrel.local:3000/app/settings" := by
  constructor
  · decide
  · rw [rewriteUmbrelURL_internal_host_parts _ _ _ (by decide)]
    decide

/-- C1 counterexample: an https destination with no explicit port is
rewritten to port 80, whereas preserving the port-or-default (as the claim
states) would give the https default 443; the two results differ. -/
theorem rewriteUmbrelURL_https_default_port_cx :
    rewriteUmbrelURL "https://10.21.0.5/x"
        (some { protocol := "https:", hostname := "10.21.0.5", port := "",
                pathname := "/x", search := "", hash := "" })
        "umbrel.local"
      = "https://umbrel.local:80/x" ∧
    rewriteURLSpec "https://10.21.0.5/x"
        (some { protocol := "https:", hostname := "10.21.0.5", port := "",
                pathname := "/x", search := "", hash := "" })
        "umbrel.local"
      = "https://umbrel.local:443/x" ∧
    ("https://umbrel.local:80/x" : String) ≠ "https://umbrel.local:443/x" := by
  refine ⟨by decide, by decide, by decide⟩

/-- C3: every `window.open`/`target=_blank` request is answered with a deny
decision, so no second window is ever created, and the rewrite-rule-applied
destination URL is loaded in the single existing window. -/
theorem windowOpen_single_window
    (s : KioskState) (url : String) (parsed : Option URLParts) (baseHost : String) :
    (windowOpenHandler s url parsed baseHost).1 = WindowOpenAction.deny ∧
    (applyWindowOpen s url parsed baseHost).windows = s.windows ∧
    (applyWindowOpen s url parsed baseHost).loads
      = s.loads ++ [rewriteUmbrelURL url parsed baseHost] := by
  refine ⟨rfl, rfl, rfl⟩

/-- The probe-timer representation invariant: the number of live probe
intervals is one exactly when the `networkCheckTimer` variable is set (in
particular, at most one probe timer exists). -/
def TimerInv (s : KioskState) : Prop :=
  s.activeTimers = if s.networkCheckTimer then 1 else 0

instance (s : KioskState) : Decidable (TimerInv s) := by
  unfold TimerInv
  infer_instance

theorem timerInv_startNetworkCheck (s : KioskState) (h : TimerInv s) :
    TimerInv (startNetworkCheck s) := by
  unfold TimerInv startNetworkCheck at *
  by_cases ht : s.networkCheckTimer <;> simp_all

theorem timerInv_stopNetworkCheck (s : KioskState) (h : TimerInv s) :
    TimerInv (stopNetworkCheck s) := by
  unfold TimerInv stopNetworkCheck at *
  by_cases ht : s.networkCheckTimer <;> simp_all

theorem timerFields_showNetworkError (s : KioskState) :
    (showNetworkError s).networkCheckTimer = s.networkCheckTimer ∧
    (showNetworkError s).activeTimers = s.activeTimers := by
  unfold showNetworkError
  by_cases h : s.isShowingOverlay <;> simp [h]

theorem timerFields_showLoadError (s : KioskState) (d : String) :
    (showLoadError d s).networkCheckTimer = s.networkCheckTimer ∧
    (showLoadError d s).activeTimers = s.activeTimers := by
  unfold showLoadError
  by_cases h : s.isShowingOverlay <;> simp [h]

theorem timerInv_showNetworkError (s : KioskState) (h : TimerInv s) :
    TimerInv (showNetworkError s) := by
  unfold TimerInv at *
  rw [(timerFields_showNetworkError s).1, (timerFields_showNetworkError s).2]
  exact h

theorem timerInv_step (baseHost : String) (op : Op) (s : KioskState)
    (h : TimerInv s) : TimerInv (step baseHost op s) := by
  cases op with
  | willNavigateEv url parsed =>
      unfold TimerInv at h ⊢
      simp only [step, willNavigate]
      split_ifs <;> simp_all
  | didNavigateEv url =>
      unfold TimerInv at h ⊢
      simp only [step, didNavigate, hideOverlay]
      split_ifs <;> simp_all
  | didNavigateInPageEv url =>
      unfold TimerInv at h ⊢
      simp only [step, didNavigateInPage]
      split_ifs <;> simp_all
  | willRedirectEv url parsed =>
      unfold TimerInv at h ⊢
      simp only [step, willRedirect]
      split_ifs <;> simp_all
  | windowOpenEv url parsed =>
      unfold TimerInv at h ⊢
      simp only [step, applyWindowOpen, windowOpenHandler]
      simpa using h
  | didFailLoadEv code description =>
      simp only [step, didFailLoad]
      split_ifs with hc
      · refine timerInv_startNetworkCheck _ (timerInv_showNetworkError _ ?_)
        unfold TimerInv at h ⊢
        simpa using h
      · unfold TimerInv at h ⊢
        rw [(timerFields_showLoadError s description).1,
            (timerFields_showLoadError s description).2]
        exact h
  | crashedEv =>
      unfold TimerInv at h ⊢
      simp only [step, crashedHandler, showCrashOverlay]
      simpa using h
  | crashReloadEv =>
      unfold TimerInv at h ⊢
      simp only [step, reloadPage]
      simpa using h
  | unresponsiveEv =>
      unfold TimerInv at h ⊢
      simp only [step, unresponsiveHandler, showUnresponsiveOverlay]
      simpa using h
  | responsiveEv =>
      unfold TimerInv at h ⊢
      simp only [step, responsiveHandler, hideOverlay]
      simpa using h
  | retryEv =>
      unfold TimerInv at h ⊢
      simp only [step, kioskRetry, reloadPage, hideOverlay]
      simpa using h
  | reloadEv =>
      unfold TimerInv at h ⊢
      simp only [step, kioskReload, reloadPage, hideServiceMenu]
      simpa using h
  | hideServiceMenuEv =>
      unfold TimerInv at h ⊢
      simp only [step, hideServiceMenu]
      simpa using h
  | navigateEv url =>
      unfold TimerInv at h ⊢
      simp only [step, kioskNavigate, hideServiceMenu]
      simpa using h
  | goHomeEv =>
      unfold TimerInv at h ⊢
      simp only [step, kioskGoHome]
      simpa using h
  | tickEv fetchOk =>
      unfold TimerInv at h ⊢
      simp only [step, networkCheckTick, reloadPage, hideOverlay, stopNetworkCheck]
      split_ifs <;> simp_all

theorem dom_showNetworkError (s : KioskState) (h : s.dom.length ≤ 1) :
    (showNetworkError s).dom.length ≤ 1 := by
  unfold showNetworkError
  split_ifs with hov
  · exact h
  · simpa using overlayScriptGuarded_length OverlayKind.networkError s.dom h

theorem dom_showLoadError (d : String) (s : KioskState) (h : s.dom.length ≤ 1) :
    (showLoadError d s).dom.length ≤ 1 := by
  unfold showLoadError
  split_ifs with hov
  · exact h
  · simpa using overlayScriptGuarded_length OverlayKind.loadError s.dom h

theorem dom_showUnresponsiveOverlay (s : KioskState) (h : s.dom.length ≤ 1) :
    (showUnresponsiveOverlay s).dom.length ≤ 1 := by
  unfold showUnresponsiveOverlay
  simp [overlayScriptReplace_eq OverlayKind.unresponsive s.dom h]

theorem dom_hideOverlay (s : KioskState) (h : s.dom.length ≤ 1) :
    (hideOverlay s).dom.length ≤ 1 := by
  unfold hideOverlay removeOverlayScript
  simp [tail_eq_nil_of_length_le_one s.dom h]

theorem dom_startNetworkCheck (s : KioskState) :
    (startNetworkCheck s).dom = s.dom := by
  unfold startNetworkCheck
  split_ifs <;> rfl

theorem dom_stopNetworkCheck (s : KioskState) :
    (stopNetworkCheck s).dom = s.dom := by
  unfold stopNetworkCheck
  split_ifs <;> rfl

theorem dom_reloadPage (s : KioskState) : (reloadPage s).dom = s.dom := rfl

theorem dom_le_one_step (baseHost : String) (op : Op) (s : KioskState)
    (h : s.dom.length ≤ 1) : (step baseHost op s).dom.length ≤ 1 := by
  cases op with
  | willNavigateEv url parsed =>
      simp only [step, willNavigate]
      split_ifs <;> simpa using h
  | didNavigateEv url =>
      simp only [step, didNavigate, hideOverlay, removeOverlayScript]
      split_ifs <;> simp
  | didNavigateInPageEv url =>
      simp only [step, didNavigateInPage]
      split_ifs <;> simpa using h
  | willRedirectEv url parsed =>
      simp only [step, willRedirect]
      split_ifs <;> simpa using h
  | windowOpenEv url parsed =>
      simp only [step, applyWindowOpen, windowOpenHandler]
      simpa using h
  | didFailLoadEv code description =>
      simp only [step, didFailLoad]
      split_ifs with hc
      · rw [dom_startNetworkCheck]
        exact dom_showNetworkError _ (by simpa using h)
      · exact dom_showLoadError description s h
  | crashedEv =>
      simp only [step, crashedHandler, showCrashOverlay]
      simpa using h
  | crashReloadEv =>
      simp only [step, reloadPage]
      simpa using h
  | unresponsiveEv =>
      simp only [step, unresponsiveHandler]
      exact dom_showUnresponsiveOverlay s h
  | responsiveEv =>
      simp only [step, responsiveHandler]
      exact dom_hideOverlay s h
  | retryEv =>
      simp only [step, kioskRetry]
      rw [dom_reloadPage]
      exact dom_hideOverlay s h
  | reloadEv =>
      simp only [step, kioskReload, reloadPage, hideServiceMenu]
      simpa using h
  | hideServiceMenuEv =>
      simp only [step, hideServiceMenu]
      simpa using h
  | navigateEv url =>
      simp only [step, kioskNavigate, hideServiceMenu]
      simpa using h
  | goHomeEv =>
      simp only [step, kioskGoHome]
      simpa using h
  | tickEv fetchOk =>
      simp only [step, networkCheckTick]
      split_ifs with h1 h2
      · rw [dom_reloadPage]
        exact dom_hideOverlay _ (by rw [dom_stopNetworkCheck]; simpa using h)
      · exact h
      · exact h

/-- C4: at most one network-recovery probe timer exists at any time (an
invariant every runtime event preserves, and `startNetworkCheck` is a no-op
while the timer variable is set); when the probe fires successfully, the
interval is cancelled, the overlay flag and element are cleared, exactly one
reload of the current URL is issued, and a further firing changes nothing. -/
theorem networkCheck_single_timer_single_reload :
    (∀ s : KioskState, s.networkCheckTimer = true → startNetworkCheck s = s) ∧
    (∀ (baseHost : String) (op : Op) (s : KioskState), TimerInv s →
        TimerInv (step baseHost op s) ∧ (step baseHost op s).activeTimers ≤ 1) ∧
    (∀ s : KioskState, s.networkCheckTimer = true → s.dom.length ≤ 1 →
        (networkCheckTick s true).networkCheckTimer = false ∧
        (networkCheckTick s true).isShowingOverlay = false ∧
        (networkCheckTick s true).dom = [] ∧
        (networkCheckTick s true).loads = s.loads ++ [s.currentURL] ∧
        networkCheckTick (networkCheckTick s true) true = networkCheckTick s true) := by
  refine ⟨?_, ?_, ?_⟩
  · intro s h
    unfold startNetworkCheck
    simp [h]
  · intro baseHost op s h
    have hi := timerInv_step baseHost op s h
    refine ⟨hi, ?_⟩
    unfold TimerInv at hi
    rw [hi]
    split_ifs <;> omega
  · intro s ht hd
    have htail := tail_eq_nil_of_length_le_one s.dom hd
    unfold networkCheckTick stopNetworkCheck hideOverlay removeOverlayScript reloadPage
    simp [ht, htail]

/-- A state with the probe interval live and the network-error overlay
showing, as reached after a network-class load failure. -/
def probeState : KioskState :=
  { cleanState with
      networkCheckTimer := true, activeTimers := 1,
      isShowingOverlay := true, isOnline := false,
      dom := [OverlayKind.networkError] }

/-- Witness for C4 at `probeState`. -/
theorem networkCheck_single_timer_single_reload_witness :
    startNetworkCheck probeState = probeState ∧
    TimerInv (step "umbrel.local" (Op.tickEv true) probeState) ∧
    (networkCheckTick probeState true).loads
      = probeState.loads ++ [probeState.currentURL] := by
  refine ⟨networkCheck_single_timer_single_reload.1 probeState (by decide),
    (networkCheck_single_timer_single_reload.2.1 "umbrel.local" (Op.tickEv true) probeState
      (by decide)).1,
    (networkCheck_single_timer_single_reload.2.2 probeState (by decide) (by decide)).2.2.2.1⟩

/-- C2 (amended): the `did-fail-load` handler takes the NetworkError path
(network-error overlay plus recovery probe) exactly for the four codes
ERR_INTERNET_DISCONNECTED, ERR_NAME_NOT_RESOLVED, ERR_CONNECTION_REFUSED and
ERR_CONNECTION_RESET; every other failure, including the timeout codes, takes
the LoadError path (generic overlay, probe not started). -/
theorem didFailLoad_network_code_classification :
    (∀ e : Int, isNetworkErrorCode e = true ↔
        (e = ERR_INTERNET_DISCONNECTED ∨ e = ERR_NAME_NOT_RESOLVED ∨
         e = ERR_CONNECTION_REFUSED ∨ e = ERR_CONNECTION_RESET)) ∧
    (∀ (s : KioskState) (e : Int) (d : String),
        s.isShowingOverlay = false → s.dom = [] →
        (isNetworkErrorCode e = true →
            (didFailLoad s e d).dom = [OverlayKind.networkError] ∧
            (didFailLoad s e d).networkCheckTimer = true ∧
            (didFailLoad s e d).isOnline = false) ∧
        (isNetworkErrorCode e = false →
            (didFailLoad s e d).dom = [OverlayKind.loadError] ∧
            (didFailLoad s e d).networkCheckTimer = s.networkCheckTimer)) := by
  constructor
  · intro e
    unfold isNetworkErrorCode ERR_INTERNET_DISCONNECTED ERR_NAME_NOT_RESOLVED
      ERR_CONNECTION_REFUSED ERR_CONNECTION_RESET
    simp [or_assoc]
  · intro s e d hov hdom
    constructor
    · intro hc
      unfold didFailLoad startNetworkCheck showNetworkError overlayScriptGuarded
      by_cases hnt : s.networkCheckTimer <;> simp [hc, hov, hdom, hnt]
    · intro hc
      unfold didFailLoad showLoadError overlayScriptGuarded
      simp [hc, hov, hdom]

/-- C2 counterexample: ERR_TIMED_OUT (-7) and ERR_CONNECTION_TIMED_OUT (-118)
are timeouts — network-class failures per the claim — yet the handler takes
the LoadError path for them: the generic load-error overlay is shown and no
recovery probe is started. -/
theorem didFailLoad_timeout_cx :
    isNetworkErrorCode ERR_TIMED_OUT = false ∧
    isNetworkErrorCode ERR_CONNECTION_TIMED_OUT = false ∧
    (didFailLoad cleanState ERR_TIMED_OUT "timed out").dom = [OverlayKind.loadError] ∧
    (didFailLoad cleanState ERR_TIMED_OUT "timed out").networkCheckTimer = false := by
  refine ⟨by decide, by decide, by decide, by decide⟩

/-- Witness for C2 at a connection-refused failure from a clean state. -/
theorem didFailLoad_network_code_classification_witness :
    (didFailLoad cleanState ERR_CONNECTION_REFUSED "refused").dom
      = [OverlayKind.networkError] ∧
    (didFailLoad cleanState ERR_CONNECTION_REFUSED "refused").networkCheckTimer = true := by
  have h := didFailLoad_network_code_classification.2 cleanState ERR_CONNECTION_REFUSED
    "refused" rfl rfl
  exact ⟨(h.1 (by decide)).1, (h.1 (by decide)).2.1⟩

/-- A state in which the unresponsive overlay is currently shown. -/
def unresponsiveShownState : KioskState :=
  { cleanState with isShowingOverlay := true, dom := [OverlayKind.unresponsive] }

/-- C5 counterexample: entering the network-error overlay while the
unresponsive overlay is shown does not tear the previous overlay down — the
call is a no-op, the unresponsive element stays in the page and no
network-error element appears. -/
theorem showNetworkError_no_teardown_cx :
    showNetworkError unresponsiveShownState = unresponsiveShownState ∧
    (showNetworkError unresponsiveShownState).dom = [OverlayKind.unresponsive] ∧
    OverlayKind.networkError ∉ (showNetworkError unresponsiveShownState).dom := by
  refine ⟨by decide, by decide, by decide⟩

/-- C5 (amended): at most one error/status overlay element is ever visible —
every runtime event preserves the bound; entering the unresponsive overlay
tears down whatever overlay element was previously shown (and a committed
page load, such as the dedicated crash page, destroys all injected elements);
the network-error and load-error overlays are instead suppressed entirely
while another overlay is showing. -/
theorem overlay_at_most_one :
    (∀ (baseHost : String) (op : Op) (s : KioskState),
        s.dom.length ≤ 1 → (step baseHost op s).dom.length ≤ 1) ∧
    (∀ s : KioskState, s.dom.length ≤ 1 →
        (showUnresponsiveOverlay s).dom = [OverlayKind.unresponsive]) ∧
    (∀ (s : KioskState) (url : String), (didNavigate s url).dom = []) ∧
    (∀ (s : KioskState) (d : String), s.isShowingOverlay = true →
        showNetworkError s = s ∧ showLoadError d s = s) := by
  refine ⟨dom_le_one_step, ?_, ?_, ?_⟩
  · intro s h
    unfold showUnresponsiveOverlay
    simp [overlayScriptReplace_eq OverlayKind.unresponsive s.dom h]
  · intro s url
    unfold didNavigate hideOverlay removeOverlayScript
    split_ifs <;> simp
  · intro s d hov
    unfold showNetworkError showLoadError
    simp [hov]

/-- Witness for C5 at `unresponsiveShownState`. -/
theorem overlay_at_most_one_witness :
    (step "umbrel.local" Op.unresponsiveEv unresponsiveShownState).dom.length ≤ 1 ∧
    (showUnresponsiveOverlay unresponsiveShownState).dom = [OverlayKind.unresponsive] ∧
    showNetworkError unresponsiveShownState = unresponsiveShownState := by
  refine ⟨overlay_at_most_one.1 "umbrel.local" Op.unresponsiveEv unresponsiveShownState
      (by decide),
    overlay_at_most_one.2.1 unresponsiveShownState (by decide),
    (overlay_at_most_one.2.2.2 unresponsiveShownState "" (by decide)).1⟩

/-- C7 counterexample: a `will-navigate` request is a pre-commit event, not a
successful commit, yet it already updates the tracked current URL (while
issuing no load of its own). -/
theorem willNavigate_precommit_update_cx :
    (willNavigate cleanState "http://example.org/page"
        (some { protocol := "http:", hostname := "example.org", port := "",
                pathname := "/page", search := "", hash := "" })
        "umbrel.local").currentURL = "http://example.org/page" ∧
    cleanState.currentURL ≠ "http://example.org/page" ∧
    (willNavigate cleanState "http://example.org/page"
        (some { protocol := "http:", hostname := "example.org", port := "",
                pathname := "/page", search := "", hash := "" })
        "umbrel.local").loads = cleanState.loads := by
  refine ⟨by decide, by decide, by decide⟩

/-- C7 (amended): the tracked current URL is updated by the http/https
navigation events — request, commit, in-page and redirect — and never by a
navigation event whose URL does not start with http:// or https://; in
particular file-scheme loads of the loading/error pages leave it unchanged,
and a successful http/https commit sets it to the committed URL. -/
theorem currentURL_http_only :
    (∀ (s : KioskState) (url : String) (parsed : Option URLParts) (baseHost : String),
        httpPrefixed url = false →
        (willNavigate s url parsed baseHost).currentURL = s.currentURL ∧
        (didNavigate s url).currentURL = s.currentURL ∧
        (didNavigateInPage s url).currentURL = s.currentURL ∧
        (willRedirect s url parsed baseHost).currentURL = s.currentURL ∧
        (applyWindowOpen s url parsed baseHost).currentURL = s.currentURL) ∧
    (∀ (s : KioskState) (url : String),
        httpPrefixed url = true → (didNavigate s url).currentURL = url) := by
  constructor
  · intro s url parsed baseHost hn
    refine ⟨?_, ?_, ?_, ?_, ?_⟩
    · unfold willNavigate
      by_cases h1 : rewriteUmbrelURL url parsed baseHost = url
      · simp [h1, hn]
      · simp [h1]
    · unfold didNavigate hideOverlay
      split_ifs <;> simp_all
    · unfold didNavigateInPage
      split_ifs <;> simp_all
    · unfold willRedirect
      by_cases h1 : rewriteUmbrelURL url parsed baseHost = url
      · simp [h1, hn]
      · simp [h1]
    · unfold applyWindowOpen windowOpenHandler
      simp
  · intro s url hp
    unfold didNavigate hideOverlay
    simp [hp]

/-- Witness for C7 at a file-scheme load of the loading page and at an http
commit. -/
theorem currentURL_http_only_witness :
    httpPrefixed "file:///loading.html" = false ∧
    (didNavigate cleanState "file:///loading.html").currentURL = cleanState.currentURL ∧
    httpPrefixed "http://umbrel.local/home" = true ∧
    (didNavigate cleanState "http://umbrel.local/home").currentURL
      = "http://umbrel.local/home" := by
  refine ⟨by decide,
    (currentURL_http_only.1 cleanState "file:///loading.html" none "umbrel.local"
      (by decide)).2.1,
    by decide,
    currentURL_http_only.2 cleanState "http://umbrel.local/home" (by decide)⟩

/-- C9: the `kiosk:navigate` bridge command overwrites the stored target URL
as well as the current URL, so a subsequent `kiosk:goHome` loads the navigated
URL rather than the originally configured home URL; and no other runtime
operation changes the target URL. -/
theorem navigate_overwrites_target :
    (∀ (s : KioskState) (url : String),
        (kioskNavigate s url).targetURL = url ∧
        (kioskNavigate s url).currentURL = url ∧
        (kioskGoHome (kioskNavigate s url)).loads
          = (kioskNavigate s url).loads ++ [url]) ∧
    (∀ (baseHost : String) (op : Op) (s : KioskState),
        Op.isNavigate op = false → (step baseHost op s).targetURL = s.targetURL) := by
  constructor
  · intro s url
    exact ⟨rfl, rfl, rfl⟩
  · intro baseHost op s hn
    cases op with
    | willNavigateEv url parsed =>
        simp only [step, willNavigate]
        split_ifs <;> rfl
    | didNavigateEv url =>
        simp only [step, didNavigate, hideOverlay]
        split_ifs <;> rfl
    | didNavigateInPageEv url =>
        simp only [step, didNavigateInPage]
        split_ifs <;> rfl
    | willRedirectEv url parsed =>
        simp only [step, willRedirect]
        split_ifs <;> rfl
    | windowOpenEv url parsed =>
        simp only [step, applyWindowOpen, windowOpenHandler]
        rfl
    | didFailLoadEv code description =>
        simp only [step, didFailLoad, startNetworkCheck, showNetworkError, showLoadError]
        split_ifs <;> rfl
    | crashedEv =>
        simp only [step, crashedHandler, showCrashOverlay]
    | crashReloadEv =>
        simp only [step, reloadPage]
    | unresponsiveEv =>
        simp only [step, unresponsiveHandler, showUnresponsiveOverlay]
    | responsiveEv =>
        simp only [step, responsiveHandler, hideOverlay]
    | retryEv =>
        simp only [step, kioskRetry, reloadPage, hideOverlay]
    | reloadEv =>
        simp only [step, kioskReload, reloadPage, hideServiceMenu]
    | hideServiceMenuEv =>
        simp only [step, hideServiceMenu]
    | navigateEv url =>
        simp [Op.isNavigate] at hn
    | goHomeEv =>
        simp only [step, kioskGoHome]
    | tickEv fetchOk =>
        simp only [step, networkCheckTick, reloadPage, hideOverlay, stopNetworkCheck]
        split_ifs <;> rfl

/-- Witness for C9: navigating to another URL makes a following goHome load
that URL, and a goHome event leaves the target URL untouched. -/
theorem navigate_overwrites_target_witness :
    (kioskNavigate cleanState "http://other.local").targetURL = "http://other.local" ∧
    Op.isNavigate Op.goHomeEv = false ∧
    (step "umbrel.local" Op.goHomeEv cleanState).targetURL = cleanState.targetURL := by
  exact ⟨(navigate_overwrites_target.1 cleanState "http://other.local").1, by decide,
    navigate_overwrites_target.2 "umbrel.local" Op.goHomeEv cleanState (by decide)⟩
